import Mathlib

/-!
Verification development for the `udiscord` client (`src/udiscord`).

`websocket.py` is embedded at the byte level: bytes are `Nat` (values < 256 on a
real wire), byte strings are `List Nat`.  The blocking TLS transport is a byte
queue inside `WSState`; `self._underlying.read(n)` consumes `min n available`
bytes, and everything written to the transport is accumulated in `outBytes`.
Python exceptions are modelled by `Except WSErr`; every operation returns the
mutated transport state alongside its result, also on the exceptional path.

`bot.py` is embedded at the gateway-message level: the JSON codec (`dumps` /
`loads`) is an opaque external collaborator, so the socket of the `Bot` model
records whole gateway payloads (`JVal` values) rather than their serialized
bytes.  The cooperative `uasyncio` scheduling is modelled by composing the
loop-body step functions explicitly; `sleep` calls have no observable effect
on the modelled state and are dropped.
-/

namespace Udiscord

/-- Python exceptions that the client code can raise. -/
inductive WSErr
  | noData              -- NoDataException
  | structError         -- unpack applied to a short buffer
  | connectionClosed    -- ConnectionClosed
  | notImplementedErr   -- NotImplementedError
  | valueErr            -- ValueError
  | assertFailed        -- AssertionError (send on a closed socket)
deriving DecidableEq, Repr

/-- Frame opcode `OP_CONT = const(0x0)`. -/
def OP_CONT : Nat := 0x0

/-- Frame opcode `OP_TEXT = const(0x1)`. -/
def OP_TEXT : Nat := 0x1

/-- Frame opcode `OP_BYTES = const(0x2)`. -/
def OP_BYTES : Nat := 0x2

/-- Frame opcode `OP_CLOSE = const(0x8)`. -/
def OP_CLOSE : Nat := 0x8

/-- Frame opcode `OP_PING = const(0x9)`. -/
def OP_PING : Nat := 0x9

/-- Frame opcode `OP_PONG = const(0xA)`. -/
def OP_PONG : Nat := 0xA

/-- Close code `CLOSE_OK = const(1000)`. -/
def CLOSE_OK : Nat := 1000

/-- Close code `CLOSE_POLICY_VIOLATION = const(1008)`. -/
def CLOSE_POLICY_VIOLATION : Nat := 1008

/-- Close code `CLOSE_TOO_BIG = const(1009)`. -/
def CLOSE_TOO_BIG : Nat := 1009

/-- State of one `WebsocketClient` together with its transport
(`self._underlying`). -/
structure WSState where
  isOpen : Bool          -- self.open
  inBytes : List Nat     -- bytes the transport will deliver to read()
  outBytes : List Nat    -- every byte written to the transport so far
  closeCount : Nat       -- number of calls to self._underlying.close()
deriving DecidableEq, Repr

/-- Big-endian byte string of width `k` for the integer `n`, as produced by
`pack` with the `!H` (k = 2), `!I` (k = 4) and `!Q` (k = 8) formats. -/
def beBytes : Nat → Nat → List Nat
  | 0, _ => []
  | k + 1, n => (n / 256 ^ k % 256) :: beBytes k n

/-- Integer value of a big-endian byte string, as recovered by `unpack` with
the `!H` / `!Q` formats. -/
def beVal : List Nat → Nat
  | [] => 0
  | b :: rest => b * 256 ^ rest.length + beVal rest

/-- The masking loop `bytes(b ^ mask_bits[i % 4] for i, b in enumerate(data))`,
started at enumeration index `i`.  Indexing past the end of `mask_bits`
(impossible for the 4-byte keys the client uses) is modelled as the byte 0. -/
def maskFrom (mask_bits : List Nat) (i : Nat) : List Nat → List Nat
  | [] => []
  | b :: rest => (b ^^^ mask_bits.getD (i % 4) 0) :: maskFrom mask_bits (i + 1) rest

/-- `WebsocketClient.write_frame(op_code, data)`.  The 4-byte masking key
`pack("!I", random.getrandbits(32))` is passed in as `mask_bits`.  Returns the
byte string written to the transport: header, masking key, masked payload. -/
def write_frame (op_code : Nat) (data : List Nat) (mask_bits : List Nat) :
    Except WSErr (List Nat) :=
  let length := data.length
  let byte1 := 0x80 ||| op_code
  if length < 126 then
    .ok ([byte1, 0x80 ||| length] ++ mask_bits ++ maskFrom mask_bits 0 data)
  else if length < 1 <<< 16 then
    .ok ([byte1, 0x80 ||| 126] ++ beBytes 2 length ++ mask_bits ++ maskFrom mask_bits 0 data)
  else if length < 1 <<< 64 then
    .ok ([byte1, 0x80 ||| 127] ++ beBytes 8 length ++ mask_bits ++ maskFrom mask_bits 0 data)
  else
    .error .valueErr

/-- `WebsocketClient._close()`: marks the client closed, releases the
underlying transport and raises `ConnectionClosed`. -/
def _close (st : WSState) : Except WSErr Unit × WSState :=
  (.error .connectionClosed,
    { st with isOpen := false, closeCount := st.closeCount + 1 })

/-- `WebsocketClient.close(code, reason)` with `reason` already UTF-8 encoded.
If the client is open it writes one Close frame whose payload is
`pack("!H", code) + reason` and then runs `_close` (which raises); otherwise it
does nothing. -/
def close (mask_bits : List Nat) (code : Nat) (reason : List Nat) (st : WSState) :
    Except WSErr Unit × WSState :=
  if st.isOpen then
    match write_frame OP_CLOSE (beBytes 2 code ++ reason) mask_bits with
    | .error e => (.error e, st)
    | .ok frame => _close { st with outBytes := st.outBytes ++ frame }
  else
    (.ok (), st)

/-- UTF-8 bytes of the close reason `"Received data is too big."`. -/
def tooBigReason : List Nat :=
  "Received data is too big.".toList.map Char.toNat

/-- `WebsocketClient.read_frame()`.  `memLimit` models the MicroPython heap:
`self._underlying.read(length)` raises `MemoryError` exactly when a limit is
configured and `length` exceeds it (`none` = allocation always succeeds).
`mask_bits_out` is the random masking key used for the Close frame that the
`MemoryError` handler may send. -/
def read_frame (mask_bits_out : List Nat) (memLimit : Option Nat) (st : WSState) :
    Except WSErr (Bool × Nat × List Nat) × WSState :=
  match st.inBytes with
  | [] => (.error .noData, st)
  | [_] => (.error .structError, { st with inBytes := [] })
  | byte1 :: byte2 :: rest =>
    -- byte 1: FIN(1) _(1) _(1) _(1) OPCODE(4)
    let fin : Bool := byte1 &&& 0x80 != 0
    let op_code : Nat := byte1 &&& 0x0F
    -- byte 2: MASK(1) LENGTH(7)
    let mask : Bool := byte2 &&& 1 <<< 7 != 0
    let length7 : Nat := byte2 &&& 0x7F
    let step : Option (Nat × List Nat) :=
      if length7 = 126 then
        if rest.length < 2 then none else some (beVal (rest.take 2), rest.drop 2)
      else if length7 = 127 then
        if rest.length < 8 then none else some (beVal (rest.take 8), rest.drop 8)
      else
        some (length7, rest)
    match step with
    | none => (.error .structError, { st with inBytes := [] })
    | some (length, rem) =>
      let mask_bits := if mask then rem.take 4 else []
      let rem2 := if mask then rem.drop 4 else rem
      let memFail : Bool :=
        match memLimit with
        | some lim => decide (lim < length)
        | none => false
      if memFail then
        -- `except MemoryError:` — send Close/1009, then `return True, OP_CLOSE, b""`.
        -- When the client is open, `close` ends in `_close`, which raises
        -- ConnectionClosed; that exception propagates past the handler.
        match close mask_bits_out CLOSE_TOO_BIG tooBigReason { st with inBytes := rem2 } with
        | (.ok _, st2) => (.ok (true, OP_CLOSE, []), st2)
        | (.error e, st2) => (.error e, st2)
      else
        let data := rem2.take length
        let st2 : WSState := { st with inBytes := rem2.drop length }
        let out := if mask then maskFrom mask_bits 0 data else data
        (.ok (fin, op_code, out), st2)

/-- `WebsocketClient.recv()`.  The JSON layer is opaque, so a delivered message
is surfaced as the raw payload byte string that the source hands to `loads`.
`fuel` bounds the `while self.open` loop (a model artifact: running out of fuel
returns `none`, exactly like exiting the loop).  `mask_bits_out` is the masking
key used for any frame the loop itself writes (Pong replies). -/
def recv (mask_bits_out : List Nat) (memLimit : Option Nat) :
    Nat → WSState → Except WSErr (Option (List Nat)) × WSState
  | 0, st => (.ok none, st)
  | fuel + 1, st =>
    if st.isOpen then
      match read_frame mask_bits_out memLimit st with
      | (.error .valueErr, st1) =>
        -- `except ValueError: return await self._close()`
        match _close st1 with
        | (.ok _, st2) => (.ok none, st2)
        | (.error e, st2) => (.error e, st2)
      | (.error e, st1) => (.error e, st1)
      | (.ok (fin, op_code, data), st1) =>
        if !fin then (.error .notImplementedErr, st1)
        else if op_code = OP_TEXT then (.ok (some data), st1)
        else if op_code = OP_BYTES then (.ok (some data), st1)
        else if op_code = OP_CLOSE then
          match _close st1 with
          | (.ok _, st2) => (.ok none, st2)
          | (.error e, st2) => (.error e, st2)
        else if op_code = OP_PING then
          match write_frame OP_PONG data mask_bits_out with
          | .error e => (.error e, st1)
          | .ok frame => recv mask_bits_out memLimit fuel { st1 with outBytes := st1.outBytes ++ frame }
        else if op_code = OP_CONT then (.error .notImplementedErr, st1)
        else (.error .valueErr, st1)
    else
      (.ok none, st)

/-- JSON values, the logical payloads carried by gateway messages.  Python
dicts are field lists in insertion order (`dumps` preserves this order). -/
inductive JVal
  | null
  | num (n : Int)
  | str (s : String)
  | arr (elems : List JVal)
  | obj (fields : List (String × JVal))
deriving Repr

/-- Gateway op `Bot.DISPATCH = const(0)`. -/
def DISPATCH : Int := 0

/-- Gateway op `Bot.HEARTBEAT = const(1)`. -/
def HEARTBEAT : Int := 1

/-- Gateway op `Bot.IDENTIFY = const(2)`. -/
def IDENTIFY : Int := 2

/-- Gateway op `Bot.RESUME = const(6)`. -/
def RESUME : Int := 6

/-- Gateway op `Bot.ACK = const(11)`. -/
def ACK : Int := 11

/-- `Activity` from `presence.py`. -/
structure Activity where
  name : String
  type : Int
  url : Option String
deriving Repr

/-- `Activity.to_dict()`: the `url` key is appended only when present. -/
def Activity.to_dict (a : Activity) : JVal :=
  .obj ([("name", .str a.name), ("type", .num a.type)] ++
    (match a.url with
     | some u => [("url", .str u)]
     | none => []))

/-- The `WebsocketClient` as seen from `bot.py`, at gateway-message level:
the JSON codec is opaque, so `sent` records the payloads handed to
`socket.send` and `closesSent` the codes of Close frames written by
`socket.close`; `inMsgs` are the decoded messages that successive
`socket.recv` calls will deliver.  (The byte-level behaviour of the same
object is `WSState` / `read_frame` / `recv` above.) -/
structure BSocket where
  isOpen : Bool
  inMsgs : List JVal
  sent : List JVal
  closesSent : List Nat
  closeCount : Nat
deriving Repr

/-- The `Bot` object: its session attributes plus its socket. -/
structure BotState where
  token : String
  intents : Int
  activity : Option Activity
  status : Option String
  sequence : Option Int      -- Bot.sequence
  session_id : Option Int    -- Bot.session_id
  heartbeat_ack : Bool       -- Bot._heartbeat_ack
  socket : BSocket
deriving Repr

/-- Python truthiness of an `int | None` value (`if self.session_id:`):
`None` and `0` are falsy. -/
def pyTruthyInt : Option Int → Bool
  | none => false
  | some n => n != 0

/-- Python `x or default` for an `str | None` value: `None` and `""` give the
default. -/
def pyOrStr (s : Option String) (default : String) : String :=
  match s with
  | none => default
  | some s => if s = "" then default else s

/-- JSON encoding of an `int | None` attribute (`dumps` turns `None` into
`null`). -/
def optJInt : Option Int → JVal
  | none => .null
  | some n => .num n

/-- `WebsocketClient.send(payload)` at message level: `assert self.open`, then
one Binary frame carrying `dumps(payload)` is written. -/
def socket_send (payload : JVal) (s : BSocket) : Except WSErr Unit × BSocket :=
  if s.isOpen then
    (.ok (), { s with sent := s.sent ++ [payload] })
  else
    (.error .assertFailed, s)

/-- `WebsocketClient.close(code)` at message level, mirroring `close` /
`_close` above: when open, one Close frame with `code` is written, the
transport is released and `ConnectionClosed` is raised; otherwise nothing
happens. -/
def socket_close (code : Nat) (s : BSocket) : Except WSErr Unit × BSocket :=
  if s.isOpen then
    (.error .connectionClosed,
      { s with isOpen := false, closesSent := s.closesSent ++ [code],
               closeCount := s.closeCount + 1 })
  else
    (.ok (), s)

/-- A successful `WebsocketClient.recv()` at message level: the next decoded
gateway message, or `none` when no message is delivered. -/
def socket_recvMsg (s : BSocket) : Option JVal × BSocket :=
  match s.inMsgs with
  | [] => (none, s)
  | m :: rest => (some m, { s with inMsgs := rest })

/-- `Bot.send_heartbeat()`: sends `{"op": HEARTBEAT, "d": self.sequence}`. -/
def send_heartbeat (bs : BotState) : Except WSErr Unit × BotState :=
  match socket_send (.obj [("op", .num HEARTBEAT), ("d", optJInt bs.sequence)]) bs.socket with
  | (r, s') => (r, { bs with socket := s' })

/-- One iteration of the `while True:` loop of `Bot.heartbeat(interval)`:
if `self._heartbeat_ack` is set, sleep one interval, send a heartbeat and
clear the flag; otherwise call `self.socket.close()` (default code
`CLOSE_OK`). -/
def heartbeat_tick (bs : BotState) : Except WSErr Unit × BotState :=
  if bs.heartbeat_ack then
    match send_heartbeat bs with
    | (.error e, bs') => (.error e, bs')
    | (.ok _, bs') => (.ok (), { bs' with heartbeat_ack := false })
  else
    match socket_close CLOSE_OK bs.socket with
    | (r, s') => (r, { bs with socket := s' })

/-- The `while True:` loop of `Bot.heartbeat`, bounded by `fuel` iterations
(a model artifact: the loop only ends when an exception is raised). -/
def heartbeat_loop : Nat → BotState → Except WSErr Unit × BotState
  | 0, bs => (.ok (), bs)
  | fuel + 1, bs =>
    match heartbeat_tick bs with
    | (.error e, bs') => (.error e, bs')
    | (.ok _, bs') => heartbeat_loop fuel bs'

/-- `Bot.heartbeat(interval)`: set `_heartbeat_ack`, sleep the random jitter,
send the first heartbeat, then run the loop. -/
def heartbeat (fuel : Nat) (bs : BotState) : Except WSErr Unit × BotState :=
  let bs := { bs with heartbeat_ack := true }
  match send_heartbeat bs with
  | (.error e, bs') => (.error e, bs')
  | (.ok _, bs') => heartbeat_loop fuel bs'

/-- The payload sent by `Bot.identify()`.  `osName` stands for the external
`os.uname()[0]`. -/
def identify_payload (osName : String) (bs : BotState) : JVal :=
  .obj [("op", .num IDENTIFY),
        ("d", .obj [
          ("token", .str bs.token),
          ("intents", .num bs.intents),
          ("properties", .obj [
            ("os", .str osName),
            ("browser", .str "udiscord"),
            ("device", .str "udiscord")]),
          ("presence", .obj [
            ("activities", .arr
              (match bs.activity with
               | some a => [a.to_dict]
               | none => [])),
            ("status", .str (pyOrStr bs.status "online"))])])]

/-- `Bot.identify()`. -/
def identify (osName : String) (bs : BotState) : Except WSErr Unit × BotState :=
  match socket_send (identify_payload osName bs) bs.socket with
  | (r, s') => (r, { bs with socket := s' })

/-- The payload sent by `Bot.resume()`: it carries exactly the stored
`session_id` and `sequence`. -/
def resume_payload (bs : BotState) : JVal :=
  .obj [("op", .num RESUME),
        ("d", .obj [
          ("token", .str bs.token),
          ("session_id", optJInt bs.session_id),
          ("seq", optJInt bs.sequence)])]

/-- `Bot.resume()`. -/
def resume (bs : BotState) : Except WSErr Unit × BotState :=
  match socket_send (resume_payload bs) bs.socket with
  | (r, s') => (r, { bs with socket := s' })

/-- `Bot.receive()`: `while self.socket.open:` pull the next message and, if it
is not `None`, print it.  The loop body mutates nothing except the socket's
message queue — in particular `sequence`, `session_id` and `_heartbeat_ack`
are untouched whatever the message contains.  `fuel` bounds the loop. -/
def receive : Nat → BotState → Except WSErr Unit × BotState
  | 0, bs => (.ok (), bs)
  | fuel + 1, bs =>
    if bs.socket.isOpen then
      match socket_recvMsg bs.socket with
      | (_, s') => receive fuel { bs with socket := s' }
    else
      (.ok (), bs)

/-- `Bot.connect()`: open the websocket (handshake external), then resume if
`self.session_id` is truthy, identify otherwise, then run `receive`. -/
def connect (osName : String) (fuel : Nat) (bs : BotState) : Except WSErr Unit × BotState :=
  let bs := { bs with socket := { bs.socket with isOpen := true } }
  match (if pyTruthyInt bs.session_id then resume bs else identify osName bs) with
  | (.error e, bs') => (.error e, bs')
  | (.ok _, bs') => receive fuel bs'

/-! ### Helper lemmas about the codec -/

theorem beBytes_length (k n : Nat) : (beBytes k n).length = k := by
  induction k generalizing n with
  | zero => rfl
  | succ k ih => simp [beBytes, ih]

theorem beVal_beBytes (k n : Nat) : beVal (beBytes k n) = n % 256 ^ k := by
  induction k generalizing n with
  | zero => simp [beBytes, beVal, Nat.mod_one]
  | succ k ih =>
    rw [beBytes, beVal, beBytes_length, ih, pow_succ, Nat.mod_mul]
    ring

theorem maskFrom_len (m : List Nat) (i : Nat) (d : List Nat) :
    (maskFrom m i d).length = d.length := by
  induction d generalizing i with
  | nil => rfl
  | cons b rest ih => simp [maskFrom, ih]

theorem maskFrom_maskFrom (m : List Nat) (i : Nat) (d : List Nat) :
    maskFrom m i (maskFrom m i d) = d := by
  induction d generalizing i with
  | nil => rfl
  | cons b rest ih => simp [maskFrom, Nat.xor_cancel_right, ih]

theorem header_bits_op : ∀ o : Nat, o < 16 →
    (128 ||| o) &&& 128 = 128 ∧ (128 ||| o) &&& 15 = o := by decide

theorem header_bits_len : ∀ L : Nat, L < 126 →
    (128 ||| L) &&& 128 = 128 ∧ (128 ||| L) &&& 127 = L := by decide

theorem plain_len_bits : ∀ L : Nat, L < 126 →
    L &&& 128 = 0 ∧ L &&& 127 = L := by decide

theorem write_frame_ok (op : Nat) (data m : List Nat) (h : data.length < 1 <<< 64) :
    ∃ frame, write_frame op data m = .ok frame := by
  rw [write_frame]
  split_ifs <;> exact ⟨_, rfl⟩

/-- Decoding inverts encoding: for any opcode whose low nibble is itself
(both bit facts are supplied as hypotheses), any payload representable in the
64-bit extended length, and any 4-byte masking key, `read_frame` applied to
the output of `write_frame` recovers `(final = true, opcode, payload)` and
consumes the frame exactly. -/
theorem roundtrip_aux (op : Nat)
    (h1 : (128 ||| op) &&& 128 = 128) (h2 : (128 ||| op) &&& 15 = op)
    (data m mo out : List Nat) (hm : m.length = 4) (hlen : data.length < 1 <<< 64)
    (cc : Nat) :
    ∃ frame, write_frame op data m = .ok frame ∧
      read_frame mo none ⟨true, frame, out, cc⟩ =
        (.ok (true, op, data), ⟨true, [], out, cc⟩) := by
  have htake : List.take data.length (maskFrom m 0 data) = maskFrom m 0 data := by
    rw [← maskFrom_len m 0 data]
    exact List.take_length _
  have hdrop : List.drop data.length (maskFrom m 0 data) = [] := by
    rw [← maskFrom_len m 0 data]
    exact List.drop_length _
  by_cases hc : data.length < 126
  · refine ⟨_, by rw [write_frame]; exact if_pos hc, ?_⟩
    have hb := header_bits_len data.length hc
    have hne1 : data.length ≠ 126 := by omega
    have hne2 : data.length ≠ 127 := by omega
    simp only [List.cons_append, List.nil_append, read_frame]
    simp only [h1, h2, hb.1, hb.2, hne1, hne2, if_false, ite_false, if_neg]
    have h7 : (1 <<< 7 : Nat) = 128 := rfl
    simp [h7, hb.1, List.take_left' hm, List.drop_left' hm, htake, hdrop, maskFrom_maskFrom]
  · by_cases hc2 : data.length < 1 <<< 16
    · refine ⟨_, by rw [write_frame]; rw [if_neg hc]; exact if_pos hc2, ?_⟩
      have hb2 : ((0x80 ||| 126 : Nat)) = 254 := rfl
      have hlen16 : data.length < 256 ^ 2 := by
        rw [Nat.shiftLeft_eq] at hc2
        norm_num at hc2 ⊢
        omega
      have hval : beVal (beBytes 2 data.length) = data.length := by
        rw [beVal_beBytes]
        exact Nat.mod_eq_of_lt hlen16
      have hrest : ¬ ((beBytes 2 data.length).length + (m.length + (maskFrom m 0 data).length) < 2) := by
        simp [beBytes_length]
      have ha2 : (254 &&& 127 : Nat) = 126 := rfl
      have ha7 : (254 &&& 1 <<< 7 : Nat) = 128 := rfl
      have hdrop2 : List.drop (4 + data.length) (m ++ maskFrom m 0 data) = [] := by
        have e : (m ++ maskFrom m 0 data).length = 4 + data.length := by
          simp [hm, maskFrom_len]
        rw [← e]
        exact List.drop_length _
      simp only [List.append_assoc, List.cons_append, List.nil_append, read_frame, hb2]
      simp [h1, h2, ha2, ha7, hrest, List.take_left' (beBytes_length 2 data.length),
            List.drop_left' (beBytes_length 2 data.length), hval, hdrop2,
            List.take_left' hm, List.drop_left' hm, htake, hdrop, maskFrom_maskFrom]
    · refine ⟨_, by rw [write_frame]; rw [if_neg hc, if_neg hc2]; exact if_pos hlen, ?_⟩
      have hb2 : ((0x80 ||| 127 : Nat)) = 255 := rfl
      have hlen64 : data.length < 256 ^ 8 := by
        have e : (1 <<< 64 : Nat) = 256 ^ 8 := by
          rw [Nat.shiftLeft_eq]
          norm_num
        rw [e] at hlen
        exact hlen
      have hval : beVal (beBytes 8 data.length) = data.length := by
        rw [beVal_beBytes]
        exact Nat.mod_eq_of_lt hlen64
      have hrest : ¬ ((beBytes 8 data.length).length + (m.length + (maskFrom m 0 data).length) < 8) := by
        simp [beBytes_length]
      have ha2 : (255 &&& 127 : Nat) = 127 := rfl
      have ha7 : (255 &&& 1 <<< 7 : Nat) = 128 := rfl
      have hdrop2 : List.drop (4 + data.length) (m ++ maskFrom m 0 data) = [] := by
        have e : (m ++ maskFrom m 0 data).length = 4 + data.length := by
          simp [hm, maskFrom_len]
        rw [← e]
        exact List.drop_length _
      simp only [List.append_assoc, List.cons_append, List.nil_append, read_frame, hb2]
      simp [h1, h2, ha2, ha7, hrest, List.take_left' (beBytes_length 8 data.length),
            List.drop_left' (beBytes_length 8 data.length), hval, hdrop2,
            List.take_left' hm, List.drop_left' hm, htake, hdrop, maskFrom_maskFrom]

/-- `Bot.receive` never appends to the list of sent messages. -/
theorem receive_sent (fuel : Nat) (bs : BotState) :
    ((receive fuel bs).2).socket.sent = bs.socket.sent := by
  induction fuel generalizing bs with
  | zero => rfl
  | succ fuel ih =>
    rw [receive]
    by_cases h : bs.socket.isOpen
    · simp only [h, if_true, socket_recvMsg]
      cases bs.socket.inMsgs with
      | nil => exact ih _
      | cons m rest => exact ih _
    · simp [h]

/-! ### Claims -/

/-- Claim C1, counterexample.  On a frame whose header was read successfully
(FIN = 1, opcode Text, declared length 5) but whose payload read raises
`MemoryError` (heap limit 4 < 5), `read_frame` on an open connection does NOT
return the synthetic terminal frame: it raises `ConnectionClosed`, because the
`close()` call inside the `MemoryError` handler ends in `_close()`, which
always raises. -/
theorem C1_memory_error_raises_counterexample :
    (read_frame [1, 2, 3, 4] (some 4) ⟨true, [129, 5], [], 0⟩).1 =
      .error .connectionClosed := rfl

/-- Claim C1, amended.  When reading the declared number of payload bytes
raises `MemoryError` (header with a 1-byte length field `L`, no mask bit,
heap limit below `L`): if the connection is open, the codec writes one
outgoing Close frame with code `CLOSE_TOO_BIG` (1009) and then raises
`ConnectionClosed` (transport closed and released); the synthetic terminal
frame `(final = true, Close, empty payload)` is returned only when the
connection is already marked closed, in which case no Close frame is sent. -/
theorem C1_memory_error_behavior (mo rest out : List Nat) (op L lim cc : Nat)
    (hL : L < 126) (hlim : lim < L) :
    (∃ frame, write_frame OP_CLOSE (beBytes 2 CLOSE_TOO_BIG ++ tooBigReason) mo = .ok frame ∧
      read_frame mo (some lim) ⟨true, (128 ||| op) :: L :: rest, out, cc⟩ =
        (.error .connectionClosed, ⟨false, rest, out ++ frame, cc + 1⟩)) ∧
    read_frame mo (some lim) ⟨false, (128 ||| op) :: L :: rest, out, cc⟩ =
      (.ok (true, OP_CLOSE, []), ⟨false, rest, out, cc⟩) := by
  have hb := plain_len_bits L hL
  have hne1 : L ≠ 126 := by omega
  have hne2 : L ≠ 127 := by omega
  have h7 : (1 <<< 7 : Nat) = 128 := rfl
  have hbuf : (beBytes 2 CLOSE_TOO_BIG ++ tooBigReason).length < 1 <<< 64 := by decide
  obtain ⟨frame, hf⟩ := write_frame_ok OP_CLOSE (beBytes 2 CLOSE_TOO_BIG ++ tooBigReason) mo hbuf
  constructor
  · refine ⟨frame, hf, ?_⟩
    rw [read_frame]
    simp only [h7, hb.1, hb.2, hne1, hne2, if_false, ite_false, if_neg]
    simp [hlim, close, hf, _close]
  · rw [read_frame]
    simp only [h7, hb.1, hb.2, hne1, hne2, if_false, ite_false, if_neg]
    simp [hlim, close]

/-- Claim C1, amended, witness at a concrete frame: opcode Text, declared
length 5, heap limit 4, two buffered payload bytes. -/
theorem C1_memory_error_behavior_witness :
    (∃ frame, write_frame OP_CLOSE (beBytes 2 CLOSE_TOO_BIG ++ tooBigReason) [1, 2, 3, 4] = .ok frame ∧
      read_frame [1, 2, 3, 4] (some 4) ⟨true, (128 ||| 1) :: 5 :: [77, 66], [], 0⟩ =
        (.error .connectionClosed, ⟨false, [77, 66], [] ++ frame, 0 + 1⟩)) ∧
    read_frame [1, 2, 3, 4] (some 4) ⟨false, (128 ||| 1) :: 5 :: [77, 66], [], 0⟩ =
      (.ok (true, OP_CLOSE, []), ⟨false, [77, 66], [], 0⟩) :=
  C1_memory_error_behavior [1, 2, 3, 4] [77, 66] [] 1 5 4 0 (by decide) (by decide)

/-- Claim C2.  For every opcode in {Text, Binary, Close, Ping, Pong} and every
payload whose length is one of {0, 1, 125, 126, 65535, 65536, 70000}, decoding
the bytes produced by `write_frame` (mask applied on the wire by the encoder,
read back and removed by the decoder) yields exactly
`(final = true, same opcode, same payload)`, consuming the whole frame. -/
theorem C2_encode_decode_roundtrip (op : Nat)
    (hop : op ∈ ([OP_TEXT, OP_BYTES, OP_CLOSE, OP_PING, OP_PONG] : List Nat))
    (data mask_bits mo out : List Nat) (cc : Nat)
    (hlen : data.length ∈ ([0, 1, 125, 126, 65535, 65536, 70000] : List Nat))
    (hm : mask_bits.length = 4) :
    ∃ frame, write_frame op data mask_bits = .ok frame ∧
      read_frame mo none ⟨true, frame, out, cc⟩ =
        (.ok (true, op, data), ⟨true, [], out, cc⟩) := by
  have hop16 : op < 16 := by
    simp only [OP_TEXT, OP_BYTES, OP_CLOSE, OP_PING, OP_PONG, List.mem_cons,
      List.not_mem_nil, or_false] at hop
    rcases hop with h | h | h | h | h <;> omega
  have hlen64 : data.length < 1 <<< 64 := by
    have e : (1 <<< 64 : Nat) = 18446744073709551616 := rfl
    simp only [List.mem_cons, List.not_mem_nil, or_false] at hlen
    rcases hlen with h | h | h | h | h | h | h <;> rw [h, e] <;> norm_num
  obtain ⟨hb1, hb2⟩ := header_bits_op op hop16
  exact roundtrip_aux op hb1 hb2 data mask_bits mo out hm hlen64 cc

/-- Claim C2, witness: a Text frame with payload `[7]` and masking key
`[1, 2, 3, 4]` round-trips. -/
theorem C2_encode_decode_roundtrip_witness :
    ∃ frame, write_frame OP_TEXT [7] [1, 2, 3, 4] = .ok frame ∧
      read_frame [] none ⟨true, frame, [], 0⟩ =
        (.ok (true, OP_TEXT, [7]), ⟨true, [], [], 0⟩) :=
  C2_encode_decode_roundtrip OP_TEXT (by decide) [7] [1, 2, 3, 4] [] [] 0 (by decide) (by decide)

/-- Claim C3 (code evidence).  A heartbeat cycle in which no acknowledgement
ever arrives: `Bot.heartbeat` sends the initial beat, one scheduled beat, and
on the next iteration (flag still clear, no ack processed anywhere) calls
`socket.close()` with the DEFAULT close code `CLOSE_OK` (1000) — not a
1008-class code — which raises `ConnectionClosed` and ends the task.
`session_id`/`sequence` survive, but no transition back to connecting and no
resume attempt exists anywhere in `Bot.heartbeat`. -/
theorem C3_missed_ack_closes_with_1000 :
    heartbeat 2
      { token := "t", intents := 0, activity := none, status := none,
        sequence := some 41, session_id := some 7, heartbeat_ack := false,
        socket := { isOpen := true, inMsgs := [], sent := [], closesSent := [], closeCount := 0 } } =
      (.error .connectionClosed,
        { token := "t", intents := 0, activity := none, status := none,
          sequence := some 41, session_id := some 7, heartbeat_ack := false,
          socket := { isOpen := false, inMsgs := [],
                      sent := [.obj [("op", .num HEARTBEAT), ("d", .num 41)],
                               .obj [("op", .num HEARTBEAT), ("d", .num 41)]],
                      closesSent := [CLOSE_OK], closeCount := 1 } }) ∧
    CLOSE_OK ≠ CLOSE_POLICY_VIOLATION := by
  constructor
  · rfl
  · decide

/-- Claim C4 (code evidence).  `Bot.receive` ignores a delivered
`{"op": 11}` (HeartbeatAck) message: after the first heartbeat-loop iteration
clears `_heartbeat_ack`, consuming the ack message leaves the flag clear, so
the very next iteration closes the connection (code 1000) even though a
timely acknowledgement arrived. -/
theorem C4_heartbeat_ack_ignored :
    (heartbeat_tick
      { token := "t", intents := 0, activity := none, status := none,
        sequence := none, session_id := none, heartbeat_ack := true,
        socket := { isOpen := true,
                    inMsgs := [.obj [("op", .num ACK), ("d", .null)]],
                    sent := [], closesSent := [], closeCount := 0 } }).2.heartbeat_ack = false ∧
    (receive 1 (heartbeat_tick
      { token := "t", intents := 0, activity := none, status := none,
        sequence := none, session_id := none, heartbeat_ack := true,
        socket := { isOpen := true,
                    inMsgs := [.obj [("op", .num ACK), ("d", .null)]],
                    sent := [], closesSent := [], closeCount := 0 } }).2).2.socket.inMsgs = [] ∧
    (receive 1 (heartbeat_tick
      { token := "t", intents := 0, activity := none, status := none,
        sequence := none, session_id := none, heartbeat_ack := true,
        socket := { isOpen := true,
                    inMsgs := [.obj [("op", .num ACK), ("d", .null)]],
                    sent := [], closesSent := [], closeCount := 0 } }).2).2.heartbeat_ack = false ∧
    heartbeat_tick (receive 1 (heartbeat_tick
      { token := "t", intents := 0, activity := none, status := none,
        sequence := none, session_id := none, heartbeat_ack := true,
        socket := { isOpen := true,
                    inMsgs := [.obj [("op", .num ACK), ("d", .null)]],
                    sent := [], closesSent := [], closeCount := 0 } }).2).2 =
      (.error .connectionClosed,
        { token := "t", intents := 0, activity := none, status := none,
          sequence := none, session_id := none, heartbeat_ack := false,
          socket := { isOpen := false, inMsgs := [],
                      sent := [.obj [("op", .num HEARTBEAT), ("d", .null)]],
                      closesSent := [CLOSE_OK], closeCount := 1 } }) :=
  ⟨rfl, rfl, rfl, rfl⟩

/-- Claim C5 (code evidence).  Delivering dispatch messages with
`s = 5`, then `s = 9`, then `s = 7` to `Bot.receive` leaves the stored
sequence at `none` after each of the three messages is consumed — the loop
body only prints and never assigns `self.sequence`. -/
theorem C5_dispatch_sequence_never_updated :
    (receive 1
      { token := "t", intents := 0, activity := none, status := none,
        sequence := none, session_id := none, heartbeat_ack := false,
        socket := { isOpen := true,
                    inMsgs := [.obj [("op", .num DISPATCH), ("d", .null), ("s", .num 5), ("t", .str "MESSAGE_CREATE")],
                               .obj [("op", .num DISPATCH), ("d", .null), ("s", .num 9), ("t", .str "MESSAGE_CREATE")],
                               .obj [("op", .num DISPATCH), ("d", .null), ("s", .num 7), ("t", .str "MESSAGE_CREATE")]],
                    sent := [], closesSent := [], closeCount := 0 } }).2.sequence = none ∧
    (receive 2
      { token := "t", intents := 0, activity := none, status := none,
        sequence := none, session_id := none, heartbeat_ack := false,
        socket := { isOpen := true,
                    inMsgs := [.obj [("op", .num DISPATCH), ("d", .null), ("s", .num 5), ("t", .str "MESSAGE_CREATE")],
                               .obj [("op", .num DISPATCH), ("d", .null), ("s", .num 9), ("t", .str "MESSAGE_CREATE")],
                               .obj [("op", .num DISPATCH), ("d", .null), ("s", .num 7), ("t", .str "MESSAGE_CREATE")]],
                    sent := [], closesSent := [], closeCount := 0 } }).2.sequence = none ∧
    (receive 3
      { token := "t", intents := 0, activity := none, status := none,
        sequence := none, session_id := none, heartbeat_ack := false,
        socket := { isOpen := true,
                    inMsgs := [.obj [("op", .num DISPATCH), ("d", .null), ("s", .num 5), ("t", .str "MESSAGE_CREATE")],
                               .obj [("op", .num DISPATCH), ("d", .null), ("s", .num 9), ("t", .str "MESSAGE_CREATE")],
                               .obj [("op", .num DISPATCH), ("d", .null), ("s", .num 7), ("t", .str "MESSAGE_CREATE")]],
                    sent := [], closesSent := [], closeCount := 0 } }).2.sequence = none ∧
    (receive 3
      { token := "t", intents := 0, activity := none, status := none,
        sequence := none, session_id := none, heartbeat_ack := false,
        socket := { isOpen := true,
                    inMsgs := [.obj [("op", .num DISPATCH), ("d", .null), ("s", .num 5), ("t", .str "MESSAGE_CREATE")],
                               .obj [("op", .num DISPATCH), ("d", .null), ("s", .num 9), ("t", .str "MESSAGE_CREATE")],
                               .obj [("op", .num DISPATCH), ("d", .null), ("s", .num 7), ("t", .str "MESSAGE_CREATE")]],
                    sent := [], closesSent := [], closeCount := 0 } }).2.socket.inMsgs = [] :=
  ⟨rfl, rfl, rfl, rfl⟩

/-- Claim C6, counterexample.  With a stored `session_id = 0` and
`sequence = 1`, `connect()` sends an Identify message (`op = 2`), not a Resume
carrying that pair: Python's `if self.session_id:` treats the stored integer 0
as absent. -/
theorem C6_zero_session_id_identifies :
    (connect "mpy" 0
      { token := "t", intents := 0, activity := none, status := none,
        sequence := some 1, session_id := some 0, heartbeat_ack := false,
        socket := { isOpen := false, inMsgs := [], sent := [], closesSent := [], closeCount := 0 } }).2.socket.sent =
      [.obj [("op", .num 2),
             ("d", .obj [("token", .str "t"), ("intents", .num 0),
                         ("properties", .obj [("os", .str "mpy"), ("browser", .str "udiscord"),
                                              ("device", .str "udiscord")]),
                         ("presence", .obj [("activities", .arr []), ("status", .str "online")])])]] ∧
    (JVal.obj [("op", .num 2),
             ("d", .obj [("token", .str "t"), ("intents", .num 0),
                         ("properties", .obj [("os", .str "mpy"), ("browser", .str "udiscord"),
                                              ("device", .str "udiscord")]),
                         ("presence", .obj [("activities", .arr []), ("status", .str "online")])])]) ≠
      resume_payload
        { token := "t", intents := 0, activity := none, status := none,
          sequence := some 1, session_id := some 0, heartbeat_ack := false,
          socket := { isOpen := false, inMsgs := [], sent := [], closesSent := [], closeCount := 0 } } := by
  constructor
  · rfl
  · intro h
    simp [resume_payload] at h

/-- Claim C6, amended.  After opening the transport, `connect()` with a truthy
(non-zero, non-`None`) stored `session_id` sends exactly one Resume message
carrying the stored `session_id`/`sequence` pair; with a falsy stored
`session_id` (`None`, or the integer 0) it sends exactly one Identify
message. -/
theorem C6_session_bootstrap (osName : String) (fuel : Nat) (bs : BotState) :
    (pyTruthyInt bs.session_id = true →
      ((connect osName fuel bs).2).socket.sent = bs.socket.sent ++ [resume_payload bs]) ∧
    (pyTruthyInt bs.session_id = false →
      ((connect osName fuel bs).2).socket.sent = bs.socket.sent ++ [identify_payload osName bs]) := by
  constructor <;> intro h
  · rw [connect]
    simp only [h, if_true, resume, socket_send, resume_payload]
    simp [receive_sent]
  · rw [connect]
    simp only [h, Bool.false_eq_true, if_false, identify, socket_send, identify_payload]
    simp [receive_sent]

/-- Claim C6, amended, witness: a bot with `session_id = 9` resumes, a bot
with no `session_id` identifies. -/
theorem C6_session_bootstrap_witness :
    ((connect "mpy" 3
      { token := "t", intents := 0, activity := none, status := none,
        sequence := some 41, session_id := some 9, heartbeat_ack := false,
        socket := { isOpen := false, inMsgs := [], sent := [], closesSent := [], closeCount := 0 } }).2).socket.sent =
      [] ++ [resume_payload
      { token := "t", intents := 0, activity := none, status := none,
        sequence := some 41, session_id := some 9, heartbeat_ack := false,
        socket := { isOpen := false, inMsgs := [], sent := [], closesSent := [], closeCount := 0 } }] ∧
    ((connect "mpy" 3
      { token := "t", intents := 0, activity := none, status := none,
        sequence := none, session_id := none, heartbeat_ack := false,
        socket := { isOpen := false, inMsgs := [], sent := [], closesSent := [], closeCount := 0 } }).2).socket.sent =
      [] ++ [identify_payload "mpy"
      { token := "t", intents := 0, activity := none, status := none,
        sequence := none, session_id := none, heartbeat_ack := false,
        socket := { isOpen := false, inMsgs := [], sent := [], closesSent := [], closeCount := 0 } }] :=
  ⟨(C6_session_bootstrap "mpy" 3 _).1 (by decide),
   (C6_session_bootstrap "mpy" 3 _).2 (by decide)⟩

/-- Claim C7.  `write_frame` encodes a payload of length 125 with the 1-byte
inline length field (no extended bytes), payloads of lengths 126 and 65535
with marker 126 followed by the 2-byte big-endian length, and a payload of
length 65536 with marker 127 followed by the 8-byte big-endian length. -/
theorem C7_length_field_boundaries (op : Nat) (d125 d126 d65535 d65536 mask_bits : List Nat)
    (h125 : d125.length = 125) (h126 : d126.length = 126)
    (h65535 : d65535.length = 65535) (h65536 : d65536.length = 65536) :
    write_frame op d125 mask_bits =
      .ok ([0x80 ||| op, 0x80 ||| 125] ++ mask_bits ++ maskFrom mask_bits 0 d125) ∧
    write_frame op d126 mask_bits =
      .ok ([0x80 ||| op, 0x80 ||| 126] ++ [0, 126] ++ mask_bits ++ maskFrom mask_bits 0 d126) ∧
    write_frame op d65535 mask_bits =
      .ok ([0x80 ||| op, 0x80 ||| 126] ++ [255, 255] ++ mask_bits ++ maskFrom mask_bits 0 d65535) ∧
    write_frame op d65536 mask_bits =
      .ok ([0x80 ||| op, 0x80 ||| 127] ++ [0, 0, 0, 0, 0, 1, 0, 0] ++ mask_bits ++ maskFrom mask_bits 0 d65536) := by
  have e16 : (1 <<< 16 : Nat) = 65536 := rfl
  have e64 : (1 <<< 64 : Nat) = 18446744073709551616 := rfl
  refine ⟨?_, ?_, ?_, ?_⟩ <;> rw [write_frame]
  · rw [h125]
    norm_num
  · rw [h126, e16]
    norm_num [beBytes, beVal]
  · rw [h65535, e16]
    norm_num [beBytes]
  · rw [h65536, e16, e64]
    norm_num [beBytes]

/-- Claim C7, witness at concrete payloads `List.replicate n 9`. -/
theorem C7_length_field_boundaries_witness :
    write_frame 1 (List.replicate 125 9) [5, 6, 7, 8] =
      .ok ([0x80 ||| 1, 0x80 ||| 125] ++ [5, 6, 7, 8] ++ maskFrom [5, 6, 7, 8] 0 (List.replicate 125 9)) ∧
    write_frame 1 (List.replicate 126 9) [5, 6, 7, 8] =
      .ok ([0x80 ||| 1, 0x80 ||| 126] ++ [0, 126] ++ [5, 6, 7, 8] ++ maskFrom [5, 6, 7, 8] 0 (List.replicate 126 9)) ∧
    write_frame 1 (List.replicate 65535 9) [5, 6, 7, 8] =
      .ok ([0x80 ||| 1, 0x80 ||| 126] ++ [255, 255] ++ [5, 6, 7, 8] ++ maskFrom [5, 6, 7, 8] 0 (List.replicate 65535 9)) ∧
    write_frame 1 (List.replicate 65536 9) [5, 6, 7, 8] =
      .ok ([0x80 ||| 1, 0x80 ||| 127] ++ [0, 0, 0, 0, 0, 1, 0, 0] ++ [5, 6, 7, 8] ++ maskFrom [5, 6, 7, 8] 0 (List.replicate 65536 9)) :=
  C7_length_field_boundaries 1 (List.replicate 125 9) (List.replicate 126 9)
    (List.replicate 65535 9) (List.replicate 65536 9) [5, 6, 7, 8]
    (List.length_replicate 125 9) (List.length_replicate 126 9)
    (List.length_replicate 65535 9) (List.length_replicate 65536 9)

/-- Claim C8.  Whenever `read_frame` yields a non-final frame (`FIN = 0`) or a
Continuation frame (opcode 0), `recv` raises `NotImplementedError` instead of
delivering a message. -/
theorem C8_fragmentation_rejected (mo : List Nat) (memLimit : Option Nat) (fuel : Nat)
    (st st1 : WSState) (fin : Bool) (op_code : Nat) (data : List Nat)
    (hopen : st.isOpen = true)
    (hread : read_frame mo memLimit st = (.ok (fin, op_code, data), st1))
    (hfrag : fin = false ∨ op_code = OP_CONT) :
    recv mo memLimit (fuel + 1) st = (.error .notImplementedErr, st1) := by
  rw [recv, hopen]
  simp only [if_true, hread]
  rcases hfrag with h | h
  · simp [h]
  · subst h
    by_cases hf : fin
    · simp [hf, OP_CONT, OP_TEXT, OP_BYTES, OP_CLOSE, OP_PING]
    · simp [Bool.eq_false_iff.mpr hf]

/-- Claim C8, witness: a non-final Text frame (header bytes `[1, 0]`). -/
theorem C8_fragmentation_rejected_witness :
    recv [] none 1 ⟨true, [1, 0], [], 0⟩ =
      (.error .notImplementedErr, ⟨true, [], [], 0⟩) :=
  C8_fragmentation_rejected [] none 0 ⟨true, [1, 0], [], 0⟩ ⟨true, [], [], 0⟩
    false 1 [] rfl rfl (Or.inl rfl)

/-- Claim C9.  Calling `close` twice on an open connection writes exactly one
Close frame to the transport and releases the underlying transport exactly
once (`closeCount` rises by one); the second call returns without any further
effect on the state. -/
theorem C9_close_idempotent (mask1 mask2 : List Nat) (code1 code2 : Nat)
    (reason1 reason2 : List Nat) (st : WSState)
    (hopen : st.isOpen = true) (hr : 2 + reason1.length < 1 <<< 64) :
    ∃ frame st1,
      write_frame OP_CLOSE (beBytes 2 code1 ++ reason1) mask1 = .ok frame ∧
      close mask1 code1 reason1 st = (.error .connectionClosed, st1) ∧
      st1 = { st with isOpen := false, outBytes := st.outBytes ++ frame,
                      closeCount := st.closeCount + 1 } ∧
      close mask2 code2 reason2 st1 = (.ok (), st1) := by
  have hlen : (beBytes 2 code1 ++ reason1).length < 1 <<< 64 := by
    simp only [List.length_append, beBytes_length]
    exact hr
  obtain ⟨frame, hf⟩ := write_frame_ok OP_CLOSE (beBytes 2 code1 ++ reason1) mask1 hlen
  refine ⟨frame, _, hf, ?_, rfl, ?_⟩
  · rw [close, hopen]
    simp [hf, _close]
  · rw [close]
    simp

/-- Claim C9, witness: closing an open connection with code 1000 and an empty
reason, then closing again with different arguments. -/
theorem C9_close_idempotent_witness :
    ∃ frame st1,
      write_frame OP_CLOSE (beBytes 2 1000 ++ []) [1, 2, 3, 4] = .ok frame ∧
      close [1, 2, 3, 4] 1000 [] ⟨true, [], [], 0⟩ = (.error .connectionClosed, st1) ∧
      st1 = ⟨false, [], [] ++ frame, 0 + 1⟩ ∧
      close [5, 6, 7, 8] 1001 [9] st1 = (.ok (), st1) :=
  C9_close_idempotent [1, 2, 3, 4] [5, 6, 7, 8] 1000 1001 [] [9]
    ⟨true, [], [], 0⟩ rfl (by decide)

/-- Claim C10.  When `recv` decodes a final Ping frame, it writes back one
Pong frame carrying the identical payload bytes and continues the receive
loop on the remaining input, returning nothing for that frame. -/
theorem C10_ping_answered_inline (mo : List Nat) (memLimit : Option Nat) (fuel : Nat)
    (st st1 : WSState) (data pong : List Nat)
    (hopen : st.isOpen = true)
    (hread : read_frame mo memLimit st = (.ok (true, OP_PING, data), st1))
    (hpong : write_frame OP_PONG data mo = .ok pong) :
    recv mo memLimit (fuel + 1) st =
      recv mo memLimit fuel { st1 with outBytes := st1.outBytes ++ pong } := by
  rw [recv, hopen]
  simp only [if_true, hread, hpong]
  simp [OP_PING, OP_TEXT, OP_BYTES, OP_CLOSE, OP_CONT, hpong]

/-- Claim C10, witness: an unmasked Ping frame `[0x89, 1, 66]`; the Pong reply
masks the payload byte 66 with the key `[1, 2, 3, 4]`. -/
theorem C10_ping_answered_inline_witness :
    recv [1, 2, 3, 4] none 1 ⟨true, [0x89, 1, 66], [], 0⟩ =
      recv [1, 2, 3, 4] none 0 ⟨true, [], [] ++ [138, 129, 1, 2, 3, 4, 66 ^^^ 1], 0⟩ :=
  C10_ping_answered_inline [1, 2, 3, 4] none 0 ⟨true, [0x89, 1, 66], [], 0⟩ ⟨true, [], [], 0⟩
    [66] [138, 129, 1, 2, 3, 4, 66 ^^^ 1] rfl rfl rfl

end Udiscord
